import Mathlib

/-!
Verification of the KNTraP support scripts.

Each Lean definition below is a shallow embedding of a function of the
repository (floats are modelled as real numbers, tables as lists, Python
exceptions as `Except`).  The theorems settle the specification claims
against these embeddings.
-/

open Real

/-! ## Bounding-box computation (`get_radec_maxmin`, KNTraP_download_ccdbyccd.py) -/

/-- The four values returned by `get_radec_maxmin`
(`return ra_min,ra_max,dec_min,dec_max`). -/
structure RadecBox where
  ra_min : ℝ
  ra_max : ℝ
  dec_min : ℝ
  dec_max : ℝ

/-- `dec_min = DECcentre - search_radius_deg; if dec_min<-90.0: dec_min=-90.0`. -/
noncomputable def dec_min_clamped (DECcentre search_radius_deg : ℝ) : ℝ :=
  if DECcentre - search_radius_deg < -90 then -90 else DECcentre - search_radius_deg

/-- `dec_max = DECcentre + search_radius_deg; if dec_max>90.0: dec_max=90.0`. -/
noncomputable def dec_max_clamped (DECcentre search_radius_deg : ℝ) : ℝ :=
  if DECcentre + search_radius_deg > 90 then 90 else DECcentre + search_radius_deg

/-- `costerm = min(np.cos(dec_min*np.pi/180.0),np.cos(dec_max*np.pi/180.0))`,
evaluated on the clamped Dec bounds. -/
noncomputable def costerm (DECcentre search_radius_deg : ℝ) : ℝ :=
  min (Real.cos (dec_min_clamped DECcentre search_radius_deg * Real.pi / 180))
      (Real.cos (dec_max_clamped DECcentre search_radius_deg * Real.pi / 180))

/-- Embedding of `get_radec_maxmin(RAcentre, DECcentre, search_radius_deg)`:
clamp the Dec bounds, return the full RA range if a clamped bound sits on a
pole, otherwise widen the RA half-width by `1/costerm` and wrap each RA bound
once (`if ra_min<0: ra_min+=360.0; if ra_max>360.0: ra_max-=360.0`). -/
noncomputable def get_radec_maxmin (RAcentre DECcentre search_radius_deg : ℝ) : RadecBox :=
  if dec_min_clamped DECcentre search_radius_deg = -90 ∨
      dec_max_clamped DECcentre search_radius_deg = 90 then
    ⟨0, 360, dec_min_clamped DECcentre search_radius_deg,
      dec_max_clamped DECcentre search_radius_deg⟩
  else
    ⟨if RAcentre - search_radius_deg * 1 / costerm DECcentre search_radius_deg < 0 then
        RAcentre - search_radius_deg * 1 / costerm DECcentre search_radius_deg + 360
      else RAcentre - search_radius_deg * 1 / costerm DECcentre search_radius_deg,
      if RAcentre + search_radius_deg * 1 / costerm DECcentre search_radius_deg > 360 then
        RAcentre + search_radius_deg * 1 / costerm DECcentre search_radius_deg - 360
      else RAcentre + search_radius_deg * 1 / costerm DECcentre search_radius_deg,
      dec_min_clamped DECcentre search_radius_deg,
      dec_max_clamped DECcentre search_radius_deg⟩

/-- The wraparound normalization as the specification words it: a value below
0 gets +360, a value above 360 gets -360. -/
noncomputable def specWrap (x : ℝ) : ℝ :=
  if x < 0 then x + 360 else if x > 360 then x - 360 else x

/-- When neither Dec bound is clamped and neither sits on a pole, the
non-polar branch of `get_radec_maxmin` is taken. -/
theorem get_radec_maxmin_nonpolar (RAcentre DECcentre r : ℝ)
    (h1 : -90 < DECcentre - r) (h2 : DECcentre + r < 90) :
    get_radec_maxmin RAcentre DECcentre r =
      ⟨if RAcentre - r * 1 / costerm DECcentre r < 0 then
          RAcentre - r * 1 / costerm DECcentre r + 360
        else RAcentre - r * 1 / costerm DECcentre r,
        if RAcentre + r * 1 / costerm DECcentre r > 360 then
          RAcentre + r * 1 / costerm DECcentre r - 360
        else RAcentre + r * 1 / costerm DECcentre r,
        DECcentre - r, DECcentre + r⟩ := by
  have hmin : dec_min_clamped DECcentre r = DECcentre - r := by
    unfold dec_min_clamped
    rw [if_neg (by linarith)]
  have hmax : dec_max_clamped DECcentre r = DECcentre + r := by
    unfold dec_max_clamped
    rw [if_neg (by linarith)]
  unfold get_radec_maxmin
  rw [if_neg]
  · rw [hmin, hmax]
  · rw [hmin, hmax]
    push_neg
    constructor <;> intro h <;> linarith

/-- When the two Dec bounds stay strictly inside the poles, the `costerm`
divisor is positive. -/
theorem costerm_pos (DECcentre r : ℝ)
    (h1 : -90 < DECcentre - r) (h2 : DECcentre + r < 90) (hr : 0 ≤ r) :
    0 < costerm DECcentre r := by
  have hmin : dec_min_clamped DECcentre r = DECcentre - r := by
    unfold dec_min_clamped
    rw [if_neg (by linarith)]
  have hmax : dec_max_clamped DECcentre r = DECcentre + r := by
    unfold dec_max_clamped
    rw [if_neg (by linarith)]
  have hpi := Real.pi_pos
  have cos1 : 0 < Real.cos ((DECcentre - r) * Real.pi / 180) := by
    apply Real.cos_pos_of_mem_Ioo
    constructor
    · nlinarith [mul_pos (show (0:ℝ) < DECcentre - r + 90 by linarith) hpi]
    · nlinarith [mul_pos (show (0:ℝ) < 90 - (DECcentre - r) by linarith) hpi]
  have cos2 : 0 < Real.cos ((DECcentre + r) * Real.pi / 180) := by
    apply Real.cos_pos_of_mem_Ioo
    constructor
    · nlinarith [mul_pos (show (0:ℝ) < DECcentre + r + 90 by linarith) hpi]
    · nlinarith [mul_pos (show (0:ℝ) < 90 - (DECcentre + r) by linarith) hpi]
  unfold costerm
  rw [hmin, hmax]
  exact lt_min cos1 cos2

/-- At `DECcentre = 59`, `r = 1` the Dec bounds are 58 and 60 and the
`costerm` divisor evaluates exactly to `cos(60°) = 1/2`. -/
theorem costerm_59_1 : costerm 59 1 = 1 / 2 := by
  have hmin : dec_min_clamped 59 1 = 58 := by
    unfold dec_min_clamped
    rw [if_neg (by norm_num)]
    norm_num
  have hmax : dec_max_clamped 59 1 = 60 := by
    unfold dec_max_clamped
    rw [if_neg (by norm_num)]
    norm_num
  have hpi := Real.pi_pos
  have h60 : (60 : ℝ) * Real.pi / 180 = Real.pi / 3 := by ring
  have hle : Real.cos ((60 : ℝ) * Real.pi / 180) ≤ Real.cos ((58 : ℝ) * Real.pi / 180) := by
    apply Real.cos_le_cos_of_nonneg_of_le_pi
    · positivity
    · nlinarith
    · nlinarith
  unfold costerm
  rw [hmin, hmax, min_eq_right hle, h60, Real.cos_pi_div_three]

/-- C3: when the search circle crosses a pole (`DECcentre - r < -90` or
`DECcentre + r > 90`), `get_radec_maxmin` returns the RA range `[0, 360)`,
i.e. `ra_min = 0` and `ra_max = 360`. -/
theorem polar_box_full_ra_range (RAcentre DECcentre r : ℝ)
    (h : DECcentre - r < -90 ∨ DECcentre + r > 90) :
    (get_radec_maxmin RAcentre DECcentre r).ra_min = 0 ∧
      (get_radec_maxmin RAcentre DECcentre r).ra_max = 360 := by
  have hcond : dec_min_clamped DECcentre r = -90 ∨ dec_max_clamped DECcentre r = 90 := by
    rcases h with h | h
    · left
      unfold dec_min_clamped
      rw [if_pos h]
    · right
      unfold dec_max_clamped
      rw [if_pos h]
  unfold get_radec_maxmin
  rw [if_pos hcond]
  exact ⟨rfl, rfl⟩

/-- Witness for C3: for the center (0, 89) and radius 2 the circle crosses
the north pole and the returned RA bounds are 0 and 360. -/
theorem polar_box_full_ra_range_witness :
    ((89 : ℝ) + 2 > 90) ∧
      (get_radec_maxmin 0 89 2).ra_min = 0 ∧ (get_radec_maxmin 0 89 2).ra_max = 360 :=
  ⟨by norm_num, polar_box_full_ra_range 0 89 2 (Or.inr (by norm_num))⟩

/-- C4: the Dec bounds returned by `get_radec_maxmin` are `DECcentre - r`
clamped at `-90` and `DECcentre + r` clamped at `90` (for every input), and
for every center Dec within `[-90 + r, 90 - r]` with `r ≥ 0` they equal
`DECcentre - r` and `DECcentre + r` exactly and lie within `[-90, 90]`. -/
theorem dec_bounds_clamped (RAcentre DECcentre r : ℝ) :
    ((get_radec_maxmin RAcentre DECcentre r).dec_min = max (DECcentre - r) (-90) ∧
      (get_radec_maxmin RAcentre DECcentre r).dec_max = min (DECcentre + r) 90) ∧
    (0 ≤ r → -90 + r ≤ DECcentre → DECcentre ≤ 90 - r →
      (get_radec_maxmin RAcentre DECcentre r).dec_min = DECcentre - r ∧
        (get_radec_maxmin RAcentre DECcentre r).dec_max = DECcentre + r ∧
        -90 ≤ DECcentre - r ∧ DECcentre + r ≤ 90) := by
  have hdmin : (get_radec_maxmin RAcentre DECcentre r).dec_min =
      dec_min_clamped DECcentre r := by
    unfold get_radec_maxmin
    split <;> rfl
  have hdmax : (get_radec_maxmin RAcentre DECcentre r).dec_max =
      dec_max_clamped DECcentre r := by
    unfold get_radec_maxmin
    split <;> rfl
  have hmin : dec_min_clamped DECcentre r = max (DECcentre - r) (-90) := by
    unfold dec_min_clamped
    split
    · rw [max_eq_right (by linarith)]
    · rw [max_eq_left (by linarith)]
  have hmax : dec_max_clamped DECcentre r = min (DECcentre + r) 90 := by
    unfold dec_max_clamped
    split
    · rw [min_eq_right (by linarith)]
    · rw [min_eq_left (by linarith)]
  refine ⟨⟨by rw [hdmin, hmin], by rw [hdmax, hmax]⟩, fun hr h1 h2 => ?_⟩
  refine ⟨?_, ?_, by linarith, by linarith⟩
  · rw [hdmin, hmin, max_eq_left (by linarith)]
  · rw [hdmax, hmax, min_eq_left (by linarith)]

/-- Witness for C4: at center (10, 0) with radius 1 the Dec bounds are
exactly -1 and 1. -/
theorem dec_bounds_clamped_witness :
    ((0 : ℝ) ≤ 1 ∧ (-90 : ℝ) + 1 ≤ 0 ∧ (0 : ℝ) ≤ 90 - 1) ∧
      (get_radec_maxmin 10 0 1).dec_min = 0 - 1 ∧
        (get_radec_maxmin 10 0 1).dec_max = 0 + 1 ∧
        (-90 : ℝ) ≤ 0 - 1 ∧ (0 : ℝ) + 1 ≤ 90 :=
  ⟨⟨by norm_num, by norm_num, by norm_num⟩,
    (dec_bounds_clamped 10 0 1).2 (by norm_num) (by norm_num) (by norm_num)⟩

/-- At the valid field center (RA 1, Dec 59) with radius 1 the wrapped RA
bounds returned by `get_radec_maxmin` are 359 and 3. -/
theorem radec_1_59_1 :
    (get_radec_maxmin 1 59 1).ra_min = 359 ∧ (get_radec_maxmin 1 59 1).ra_max = 3 := by
  have h := get_radec_maxmin_nonpolar 1 59 1 (by norm_num) (by norm_num)
  rw [costerm_59_1] at h
  rw [h]
  dsimp only
  constructor
  · rw [if_pos (by norm_num)]
    norm_num
  · rw [if_neg (by norm_num)]
    norm_num

/-! ## Archive query construction (per-CCD loop of `KNTraP_download_ccdbyccd`) -/

/-- One entry of the `"search"` list of the archive request json: a
string-valued constraint, a numeric range, or a string range. -/
inductive SearchTerm where
  | cond (field value : String)
  | numRange (field : String) (lo hi : ℝ)
  | strRange (field lo hi : String)

/-- The fixed `"search"` constraints of `jj_base`. -/
def jj_base_search : List SearchTerm :=
  [.cond "instrument" "decam", .cond "telescope" "ct4m",
   .cond "obs_type" "object", .cond "proc_type" "stacked"]

/-- The per-CCD query step of `KNTraP_download_ccdbyccd`: given the box from
`get_radec_maxmin`, `raise RuntimeError('This needs to be fixed!!')` when
`ra_min > ra_max`, otherwise extend `jj_base` with the `ra_center`,
`dec_center` and `caldat` ranges and issue that single search. -/
noncomputable def perCCDQuery (caldat : String) (box : RadecBox) :
    Except String (List SearchTerm) :=
  if box.ra_min > box.ra_max then .error "This needs to be fixed!!"
  else .ok (jj_base_search ++
    [.numRange "ra_center" box.ra_min box.ra_max,
     .numRange "dec_center" box.dec_min box.dec_max,
     .strRange "caldat" caldat caldat])

/-- Counterexample to C1: the RA range inversion is reachable for valid
input.  The center (RA 1, Dec 59) with RA in [0, 360), Dec in [-90, 90] and
positive radius 1 makes `get_radec_maxmin` return `ra_min = 359 > 3 = ra_max`. -/
theorem ra_inversion_reachable_cx :
    ((0 : ℝ) ≤ 1 ∧ (1 : ℝ) < 360) ∧ ((-90 : ℝ) ≤ 59 ∧ (59 : ℝ) ≤ 90) ∧ (0 : ℝ) < 1 ∧
      (get_radec_maxmin 1 59 1).ra_min = 359 ∧ (get_radec_maxmin 1 59 1).ra_max = 3 ∧
      (get_radec_maxmin 1 59 1).ra_min > (get_radec_maxmin 1 59 1).ra_max := by
  refine ⟨⟨by norm_num, by norm_num⟩, ⟨by norm_num, by norm_num⟩, by norm_num,
    radec_1_59_1.1, radec_1_59_1.2, ?_⟩
  rw [radec_1_59_1.1, radec_1_59_1.2]
  norm_num

/-- C1 (amended): the RA range inversion of `get_radec_maxmin` IS reachable
for valid input (RA in [0, 360), Dec in [-90, 90], positive radius), and
whenever `get_radec_maxmin` returns `ra_min > ra_max` the downloader raises
the fatal `RuntimeError` instead of issuing a single-range archive query. -/
theorem ra_inversion_raises :
    (∃ RA D r : ℝ, (0 ≤ RA ∧ RA < 360) ∧ (-90 ≤ D ∧ D ≤ 90) ∧ 0 < r ∧
        (get_radec_maxmin RA D r).ra_min > (get_radec_maxmin RA D r).ra_max) ∧
    ∀ (caldat : String) (box : RadecBox), box.ra_min > box.ra_max →
      perCCDQuery caldat box = .error "This needs to be fixed!!" := by
  constructor
  · refine ⟨1, 59, 1, ⟨by norm_num, by norm_num⟩, ⟨by norm_num, by norm_num⟩, by norm_num, ?_⟩
    rw [radec_1_59_1.1, radec_1_59_1.2]
    norm_num
  · intro caldat box h
    unfold perCCDQuery
    rw [if_pos h]

/-- Witness for C1: on a box with `ra_min = 2 > 1 = ra_max` the per-CCD query
step raises the fatal error. -/
theorem ra_inversion_raises_witness :
    (RadecBox.mk 2 1 0 0).ra_min > (RadecBox.mk 2 1 0 0).ra_max ∧
      perCCDQuery "2021-06-05" (RadecBox.mk 2 1 0 0) = .error "This needs to be fixed!!" :=
  ⟨by norm_num, ra_inversion_raises.2 "2021-06-05" (RadecBox.mk 2 1 0 0) (by norm_num)⟩

/-- Counterexample to C2: at the valid center (RA 358, Dec 59) with radius 1
(a non-polar box: 58 > -90 and 60 < 90) the returned `ra_max` equals 360,
which does not lie in the half-open interval [0, 360). -/
theorem ra_bound_exactly_360_cx :
    ((59 : ℝ) - 1 > -90 ∧ (59 : ℝ) + 1 < 90) ∧
      (get_radec_maxmin 358 59 1).ra_max = 360 ∧
      ¬(get_radec_maxmin 358 59 1).ra_max < 360 := by
  have h := get_radec_maxmin_nonpolar 358 59 1 (by norm_num) (by norm_num)
  rw [costerm_59_1] at h
  have hmax : (get_radec_maxmin 358 59 1).ra_max = 360 := by
    rw [h]
    dsimp only
    rw [if_neg (by norm_num)]
    norm_num
  exact ⟨⟨by norm_num, by norm_num⟩, hmax, by rw [hmax]; norm_num⟩

/-- C2 (amended): for a non-polar box (`DECcentre - r > -90`,
`DECcentre + r < 90`) with `RAcentre` in [0, 360), `r ≥ 0` and a scaled RA
half-width `r / costerm` of at most 360, `get_radec_maxmin` returns the RA
bounds `RAcentre ∓ r / costerm` wrapped once (a value below 0 gets +360, a
value above 360 gets -360), and both returned RA bounds lie in the closed
interval [0, 360] (the endpoint 360 itself is attainable). -/
theorem nonpolar_ra_bounds (RA D r : ℝ)
    (hRA0 : 0 ≤ RA) (hRA1 : RA < 360)
    (h1 : -90 < D - r) (h2 : D + r < 90) (hr : 0 ≤ r)
    (hw : r / costerm D r ≤ 360) :
    (get_radec_maxmin RA D r).ra_min = specWrap (RA - r / costerm D r) ∧
    (get_radec_maxmin RA D r).ra_max = specWrap (RA + r / costerm D r) ∧
    0 ≤ (get_radec_maxmin RA D r).ra_min ∧ (get_radec_maxmin RA D r).ra_min ≤ 360 ∧
    0 ≤ (get_radec_maxmin RA D r).ra_max ∧ (get_radec_maxmin RA D r).ra_max ≤ 360 := by
  have hbox := get_radec_maxmin_nonpolar RA D r h1 h2
  have hc := costerm_pos D r h1 h2 hr
  have hw0 : 0 ≤ r / costerm D r := div_nonneg hr hc.le
  rw [hbox]
  dsimp only
  simp only [mul_one]
  unfold specWrap
  refine ⟨?_, ?_, ?_, ?_, ?_, ?_⟩ <;> split_ifs <;> linarith

/-- Witness for C2: at the center (RA 10, Dec 59) with radius 1 the RA
bounds follow the wrap formula and lie in [0, 360]. -/
theorem nonpolar_ra_bounds_witness :
    ((1 : ℝ) / costerm 59 1 ≤ 360) ∧
      (get_radec_maxmin 10 59 1).ra_min = specWrap (10 - 1 / costerm 59 1) ∧
      (get_radec_maxmin 10 59 1).ra_max = specWrap (10 + 1 / costerm 59 1) ∧
      0 ≤ (get_radec_maxmin 10 59 1).ra_min ∧ (get_radec_maxmin 10 59 1).ra_min ≤ 360 ∧
      0 ≤ (get_radec_maxmin 10 59 1).ra_max ∧ (get_radec_maxmin 10 59 1).ra_max ≤ 360 :=
  ⟨by rw [costerm_59_1]; norm_num,
    nonpolar_ra_bounds 10 59 1 (by norm_num) (by norm_num) (by norm_num) (by norm_num)
      (by norm_num) (by rw [costerm_59_1]; norm_num)⟩

/-! ## Authenticated download flow (`KNTraP_download_ccdbyccd`, inner loop) -/

/-- The token endpoint response: HTTP status, the token string that
`r.json()` yields on success, and the `detail` field of the error body. -/
structure TokenResp where
  status : ℕ
  token : String
  detail : String

/-- The file endpoint response: HTTP status, the raw bytes of the file, and
the `message` field of the error body. -/
structure FileResp where
  status : ℕ
  content : String
  message : String

/-- A raised Python error: either a `NameError` on an unbound local variable
or an `Exception` carrying a message. -/
inductive PyError where
  | nameError (var : String)
  | exception (msg : String)
deriving DecidableEq

/-- What one download attempt did: whether the file GET was issued, what was
written to disk, and how the attempt ended. -/
structure DownloadOutcome where
  get_attempted : Bool
  written : Option (String × String)
  result : Except PyError Unit

/-- Modelled from the spec: the human-readable status text the HTTP library
(`requests.status_codes._codes[status][0]`) associates to a status code;
the table itself lives outside this repository. -/
def statusText (status : ℕ) : String :=
  if status = 401 then "unauthorized"
  else if status = 403 then "forbidden"
  else if status = 404 then "not_found"
  else if status = 500 then "internal_server_error"
  else "unknown"

/-- Embedding of the authenticated download of one file.  On a 200 token
response the token is bound and the file GET is issued: a 200 GET writes the
content to `out_path`, a non-200 GET raises
`Exception('Error getting file (<status text>). <message>')` and writes
nothing.  On a non-200 token response the code executes
`raise Exception(f"Could got get authorization: {token['detail']}")`, but the
local variable `token` is only assigned on the 200 path, so on the first
download attempt of a run Python raises `NameError: name 'token' is not
defined` while building that message, and the file GET is never issued. -/
def download_one_file (tok : TokenResp) (fil : FileResp) (out_path : String) :
    DownloadOutcome :=
  if tok.status = 200 then
    if fil.status = 200 then
      ⟨true, some (out_path, fil.content), .ok ()⟩
    else
      ⟨true, none,
        .error (.exception
          ("Error getting file (" ++ statusText fil.status ++ "). " ++ fil.message))⟩
  else
    ⟨false, none, .error (.nameError "token")⟩

/-- C6 (code bug witness): a 401 token response makes the download attempt
end in `NameError: token` — not in an authorization failure carrying the
server's `detail` message — though the file GET is indeed never attempted;
and a 404 file GET raises the download failure with the library's status
text and the server's message, writing no output file. -/
theorem auth_failure_raises_name_error :
    (download_one_file ⟨401, "", "Invalid credentials"⟩ ⟨200, "DATA", ""⟩ "out.fits.fz" =
      ⟨false, none, .error (.nameError "token")⟩) ∧
    (download_one_file ⟨200, "tok", ""⟩ ⟨404, "", "File not found"⟩ "out.fits.fz" =
      ⟨true, none,
        .error (.exception "Error getting file (not_found). File not found")⟩) := by
  constructor <;> rfl

/-! ## Catalog column rename (`query_catalog_pipe.py` main, Pan-STARRS-like schema) -/

/-- `astropy` `Table.rename_column`: replace the column name `old` by `new`,
raising a `KeyError` when no column named `old` exists. -/
def rename_column (cols : List String) (old new : String) : Except String (List String) :=
  if old ∈ cols then
    .ok (cols.map fun c => if c = old then new else c)
  else
    .error ("KeyError: " ++ old)

/-- The four renames the driver applies to a Pan-STARRS-like (APASS or PS1)
query result, with `b` the first letter of the selected band:
`RAJ2000 -> ra`, `DEJ2000 -> dec`, `{b}_mag -> mag`, `e_{b}_mag -> e_mag`
(note the underscore the source inserts between the band letter and `mag`). -/
def panstarrs_like_rename (cols : List String) (b : String) :
    Except String (List String) := do
  let c1 ← rename_column cols "RAJ2000" "ra"
  let c2 ← rename_column c1 "DEJ2000" "dec"
  let c3 ← rename_column c2 (b ++ "_mag") "mag"
  rename_column c3 ("e_" ++ b ++ "_mag") "e_mag"

/-- The columns `PhotoCatalog.query` selects from the PS1 catalog for a
single band `fil`: `['objID', 'RAJ2000', 'DEJ2000', '{fil}mag', 'e_{fil}mag']`
(no underscore before `mag`). -/
def ps1_columns (fil : String) : List String :=
  ["objID", "RAJ2000", "DEJ2000"] ++ [fil ++ "mag", "e_" ++ fil ++ "mag"]

/-- C5 (code bug witness): on the PS1 band-g query result the driver's rename
block raises `KeyError: g_mag` — the source renames `g_mag`/`e_g_mag`, but the
queried magnitude columns are `gmag`/`e_gmag` — so the claimed rename of the
`{band}mag` column never happens. -/
theorem panstarrs_rename_key_error :
    ps1_columns "g" = ["objID", "RAJ2000", "DEJ2000", "gmag", "e_gmag"] ∧
      panstarrs_like_rename (ps1_columns "g") "g" = .error "KeyError: g_mag" := by
  constructor <;> rfl

/-! ## Catalog query clients (`PhotoCatalog.query`, `GaiaAstrometry.query_gaia_astrom`) -/

/-- A Vizier query result: the `TableList` the library returns, as an
association list from catalog ID to the rows of that catalog's table.  When
no sources are found the library returns an empty `TableList`; indexing a
`TableList` with a missing catalog ID raises. -/
def TableListOf (α : Type) : Type := List (String × List α)

/-- `PhotoCatalog.query` after the Vizier call: `if len(t_result) == 0:
return None; else: return t_result[self.catID]`.  Indexing with a catalog ID
absent from a non-empty result raises. -/
def photo_query {α : Type} (t_result : TableListOf α) (catID : String) :
    Except String (Option (List α)) :=
  if t_result.length = 0 then .ok none
  else
    match t_result.lookup catID with
    | some t => .ok (some t)
    | none => .error ("KeyError: " ++ catID)

/-- `GaiaAstrometry.query_gaia_astrom` after the Vizier call:
`if len(t_result[self.catID]) == 0: return None; else: return
t_result[self.catID]` — the result is indexed by the catalog ID *before* any
emptiness check, so an empty `TableList` raises. -/
def query_gaia_astrom {α : Type} (t_result : TableListOf α) :
    Except String (Option (List α)) :=
  match t_result.lookup "I/345/gaia2" with
  | some t => if t.length = 0 then .ok none else .ok (some t)
  | none => .error "KeyError: I/345/gaia2"

/-- The driver's retry policy around `cat.query()` (query_catalog_pipe.py
main loop): call the client; on `None` print a warning and call it exactly
once more; on a second `None` skip the field (`continue`).  `attempt n` is
the value the (n+1)-th call returns; the second component counts the calls
issued. -/
def driver_retry {α : Type} (attempt : ℕ → Option (List α)) :
    Option (List α) × ℕ :=
  match attempt 0 with
  | some t => (some t, 1)
  | none =>
    match attempt 1 with
    | some t => (some t, 2)
    | none => (none, 2)

/-- C7 (code bug witness): on an empty Vizier result (no sources found)
`PhotoCatalog.query` returns the `None` not-found signal but
`GaiaAstrometry.query_gaia_astrom` raises a lookup error instead of
returning `None`; the driver around `PhotoCatalog.query` issues exactly one
re-query on `None` and skips the field when the second result is also
`None`. -/
theorem gaia_empty_result_raises :
    (photo_query ([] : TableListOf Unit) "I/345/gaia2" = .ok none) ∧
    (query_gaia_astrom ([] : TableListOf Unit) = .error "KeyError: I/345/gaia2") ∧
    (query_gaia_astrom [("I/345/gaia2", [()])] = .ok (some [()])) ∧
    (driver_retry (fun _ => (none : Option (List Unit))) = (none, 2)) ∧
    (driver_retry (fun n => if n = 0 then none else some [()]) = (some [()], 2)) ∧
    (driver_retry (fun _ => some [()]) = (some [()], 1)) := by
  refine ⟨rfl, rfl, rfl, rfl, rfl, rfl⟩

/-! ## Magnitude filtering and catalog write (`query_catalog_pipe.py` main, `write_file`) -/

/-- A magnitude cell: either the floating-point not-a-number or a numeric
value (floats are modelled by rationals). -/
inductive MagVal where
  | nan : MagVal
  | val (q : ℚ) : MagVal
deriving DecidableEq

/-- `np.isnan` on a magnitude cell. -/
def MagVal.isNan : MagVal → Bool
  | .nan => true
  | .val _ => false

/-- The numpy comparison `mag < x`: any comparison with NaN is false. -/
def MagVal.ltB : MagVal → ℚ → Bool
  | .nan, _ => false
  | .val q, x => q < x

/-- One row of the renamed photometric catalog table. -/
structure CatRow where
  ra : ℚ
  dec : ℚ
  mag : MagVal
  e_mag : ℚ
deriving DecidableEq

/-- `nan_index = [i for i in np.arange(len(mags)) if np.isnan(mags[i])]`. -/
def nan_index (t : List CatRow) : List ℕ :=
  (List.range t.length).filter fun i => ((t[i]?).map fun r => r.mag.isNan).getD false

/-- `t_cat.remove_rows(nan_index)` (and `np.delete(mags, nan_index)`): drop
the rows whose position is listed in `idxs`, keeping the rest in order. -/
def remove_rows (t : List CatRow) (idxs : List ℕ) : List CatRow :=
  (t.enum.filter fun p => decide (p.1 ∉ idxs)).map Prod.snd

/-- `t_cat = t_cat[(t_cat['mag'] < 30)]`. -/
def select_lt30 (t : List CatRow) : List CatRow :=
  t.filter fun r => r.mag.ltB 30

/-- The magnitude-quality stage of the driver: remove the NaN rows, then
keep only the rows with `mag < 30`. -/
def mag_filter_pipeline (t : List CatRow) : List CatRow :=
  select_lt30 (remove_rows t (nan_index t))

/-- The lines `write_file` emits: the commented header built from the first
letter of the filter name, then one line per surviving row, in table order. -/
def write_file_lines (t : List CatRow) (filt : String) : List String :=
  ("#         ra         dec       " ++ filt.take 1 ++ "      d" ++ filt.take 1) ::
    t.map fun l =>
      toString l.ra ++ " " ++ toString l.dec ++ " " ++
        (match l.mag with | .nan => "nan" | .val q => toString q) ++ " " ++ toString l.e_mag

/-- Filtering an enumerated list on a property of the element alone and then
dropping the indices is plain filtering. -/
theorem enumFrom_filter_snd {α : Type} (q : α → Bool) :
    ∀ (l : List α) (n : ℕ),
      ((l.enumFrom n).filter fun p => q p.2).map Prod.snd = l.filter q := by
  intro l
  induction l with
  | nil => intro n; rfl
  | cons a as ih =>
    intro n
    rw [List.enumFrom_cons, List.filter_cons, List.filter_cons]
    cases hq : q a <;> simp [hq, ih]

/-- Removing the rows listed in `nan_index` is exactly filtering out the
rows whose magnitude is NaN. -/
theorem remove_rows_nan_index (t : List CatRow) :
    remove_rows t (nan_index t) = t.filter fun r => !r.mag.isNan := by
  unfold remove_rows
  rw [List.filter_congr (q := fun p : ℕ × CatRow => !p.2.mag.isNan) ?_]
  · rw [show t.enum = List.enumFrom 0 t from rfl]
    exact enumFrom_filter_snd (fun r => !r.mag.isNan) t 0
  · intro p hp
    have hget : t[p.1]? = some p.2 := List.mem_enum_iff_getElem?.mp hp
    have hlen : p.1 < t.length := by
      rcases List.getElem?_eq_some_iff.mp hget with ⟨h, _⟩
      exact h
    have hmem : p.1 ∈ nan_index t ↔ p.2.mag.isNan = true := by
      unfold nan_index
      rw [List.mem_filter, List.mem_range]
      rw [hget]
      simp [hlen]
    cases hnan : p.2.mag.isNan <;> simp [hmem, hnan]

/-- C8: the driver's magnitude-quality stage removes exactly the rows whose
magnitude is NaN or at least 30 — a plain filter, so it never errors, and
the surviving rows keep their original ascending order (they form a sublist
of the input); `write_file` then writes them in that order after the header
line. -/
theorem mag_filter_keeps_good_rows_in_order (t : List CatRow) (filt : String) :
    mag_filter_pipeline t = (t.filter fun r => !r.mag.isNan && r.mag.ltB 30) ∧
    (mag_filter_pipeline t).Sublist t ∧
    write_file_lines (mag_filter_pipeline t) filt =
      write_file_lines (t.filter fun r => !r.mag.isNan && r.mag.ltB 30) filt := by
  have hmain : mag_filter_pipeline t = t.filter fun r => !r.mag.isNan && r.mag.ltB 30 := by
    unfold mag_filter_pipeline select_lt30
    rw [remove_rows_nan_index, List.filter_filter]
    exact List.filter_congr fun r _ => Bool.and_comm _ _
  exact ⟨hmain, hmain ▸ List.filter_sublist t, by rw [hmain]⟩

/-! ## Catalog name resolution (`PhotoCatalog.__init__`) -/

/-- Does the character list `pat` start the character list `s`? -/
def startsWithCh : List Char → List Char → Bool
  | [], _ => true
  | _ :: _, [] => false
  | a :: pat, b :: s => a = b && startsWithCh pat s

/-- Does `pat` occur as a contiguous run inside `s`? -/
def hasSub (pat : List Char) : List Char → Bool
  | [] => pat.isEmpty
  | c :: s => startsWithCh pat (c :: s) || hasSub pat s

/-- The Python membership test `needle in hay` on strings. -/
def strIn (needle hay : String) : Bool :=
  hasSub needle.toList hay.toList

/-- The two lines `PhotoCatalog.__init__` prints when no alias matches. -/
def catalog_not_recognized_msgs : List String :=
  ["Catalog name not recognized! Available catalogs:", "Gaia, APASS, PS1"]

/-- Embedding of `PhotoCatalog.__init__`'s catalog-ID resolution: the name is
substring-matched against the alias chain (Gaia, then PS1/Pan-STARRS, then
APASS, then SkyMapper); an unmatched name prints the two error lines and
returns normally (`return None`) — no exception is raised, which `Except` of
the ok constructor records.  The first component is `self.catID` (absent when
unmatched), the second the printed lines. -/
def photoCatalog_init (catname : String) : Except String (Option String × List String) :=
  if strIn "gaia" catname || strIn "Gaia" catname then .ok (some "I/345/gaia2", [])
  else if strIn "ps1" catname || strIn "PS1" catname || strIn "Pan" catname then
    .ok (some "II/349/ps1", [])
  else if strIn "apass" catname || strIn "APASS" catname then .ok (some "II/336/apass9", [])
  else if strIn "skymapper" catname || strIn "SM" catname || strIn "SkyMapper" catname then
    .ok (some "II/358/smss", [])
  else .ok (none, catalog_not_recognized_msgs)

/-- No alias of any catalog occurs in the name. -/
def noAliasMatch (catname : String) : Bool :=
  !(strIn "gaia" catname || strIn "Gaia" catname ||
    strIn "ps1" catname || strIn "PS1" catname || strIn "Pan" catname ||
    strIn "apass" catname || strIn "APASS" catname ||
    strIn "skymapper" catname || strIn "SM" catname || strIn "SkyMapper" catname)

/-- C9: any catalog name containing `gaia` or `Gaia` resolves to the fixed
Gaia DR2 ID `I/345/gaia2`, and a name matching no alias makes the
constructor return normally (no exception) after printing the
configuration-error lines, with no catalog ID set. -/
theorem catalog_name_resolution (catname : String) :
    ((strIn "gaia" catname || strIn "Gaia" catname) = true →
      photoCatalog_init catname = .ok (some "I/345/gaia2", [])) ∧
    (noAliasMatch catname = true →
      photoCatalog_init catname = .ok (none, catalog_not_recognized_msgs)) := by
  constructor
  · intro h
    unfold photoCatalog_init
    rw [if_pos h]
  · intro h
    unfold noAliasMatch at h
    unfold photoCatalog_init
    rw [if_neg, if_neg, if_neg, if_neg]
    all_goals
      simp only [Bool.not_eq_true', Bool.or_eq_false_iff] at h
      simp [h.1.1.1.1.1.1.1.1.1, h.1.1.1.1.1.1.1.1.2, h.1.1.1.1.1.1.1.2, h.1.1.1.1.1.1.2,
        h.1.1.1.1.1.2, h.1.1.1.1.2, h.1.1.1.2, h.1.1.2, h.1.2, h.2]

/-- Witness for C9: `"gaia2"` contains the alias `gaia` and resolves to the
Gaia DR2 ID; `"foo"` matches no alias, and construction returns normally
with the error lines printed and no catalog ID. -/
theorem catalog_name_resolution_witness :
    ((strIn "gaia" "gaia2" || strIn "Gaia" "gaia2") = true ∧
      photoCatalog_init "gaia2" = .ok (some "I/345/gaia2", [])) ∧
    (noAliasMatch "foo" = true ∧
      photoCatalog_init "foo" = .ok (none, catalog_not_recognized_msgs)) :=
  ⟨⟨by decide, (catalog_name_resolution "gaia2").1 (by decide)⟩,
    ⟨by decide, (catalog_name_resolution "foo").2 (by decide)⟩⟩

/-! ## Target-list dedup loop (`query_ls_datalab_kntrap.py`, `query_milliquasar.py`) -/

/-- One row of the `kntrap-target-list.csv` target file. -/
structure Target where
  objectName : String
  ra : ℚ
  dec : ℚ
deriving DecidableEq

/-- The main loop shared by the legacy-survey and quasar drivers: walk the
target rows keeping a `done` list of object names; a row whose `objectName`
is already in `done` is skipped (`continue`), otherwise the row is queried,
its output file written, and its name appended to `done`.  The returned list
is the rows actually queried, in order. -/
def driver_loop : List String → List Target → List Target
  | _, [] => []
  | done, r :: rs =>
    if r.objectName ∈ done then driver_loop done rs
    else r :: driver_loop (done ++ [r.objectName]) rs

/-- A name is queried by the loop exactly when it appears in the remaining
rows and is not already done. -/
theorem driver_loop_names (rows : List Target) :
    ∀ (done : List String) (n : String),
      n ∈ (driver_loop done rows).map Target.objectName ↔
        n ∈ rows.map Target.objectName ∧ n ∉ done := by
  induction rows with
  | nil => intro done n; simp [driver_loop]
  | cons r rs ih =>
    intro done n
    unfold driver_loop
    by_cases hmem : r.objectName ∈ done
    · rw [if_pos hmem, ih]
      simp only [List.map_cons, List.mem_cons]
      constructor
      · exact fun ⟨h1, h2⟩ => ⟨Or.inr h1, h2⟩
      · rintro ⟨h1 | h1, h2⟩
        · exact absurd (h1 ▸ hmem) h2
        · exact ⟨h1, h2⟩
    · rw [if_neg hmem]
      simp only [List.map_cons, List.mem_cons, ih, List.mem_append, List.mem_singleton]
      constructor
      · rintro (h | ⟨h1, h2⟩)
        · exact ⟨Or.inl h, h ▸ hmem⟩
        · exact ⟨Or.inr h1, fun hd => h2 (Or.inl hd)⟩
      · rintro ⟨h1 | h1, h2⟩
        · exact Or.inl h1
        · by_cases he : n = r.objectName
          · exact Or.inl he
          · refine Or.inr ⟨h1, fun hd => ?_⟩
            rcases hd with hd | hd
            · exact h2 hd
            · rcases hd with hd | hd
              · exact he hd
              · exact absurd hd (List.not_mem_nil n)

/-- The names the loop queries are pairwise distinct. -/
theorem driver_loop_nodup (rows : List Target) :
    ∀ done : List String, ((driver_loop done rows).map Target.objectName).Nodup := by
  induction rows with
  | nil => intro done; simp [driver_loop]
  | cons r rs ih =>
    intro done
    unfold driver_loop
    by_cases hmem : r.objectName ∈ done
    · rw [if_pos hmem]; exact ih done
    · rw [if_neg hmem]
      simp only [List.map_cons, List.nodup_cons]
      refine ⟨fun hin => ?_, ih _⟩
      have := (driver_loop_names rs (done ++ [r.objectName]) r.objectName).mp hin
      exact this.2 (List.mem_append.mpr (Or.inr (List.mem_singleton.mpr rfl)))

/-- The queried rows form a sublist of the input rows. -/
theorem driver_loop_sublist (rows : List Target) :
    ∀ done : List String, (driver_loop done rows).Sublist rows := by
  induction rows with
  | nil => intro done; simp [driver_loop]
  | cons r rs ih =>
    intro done
    unfold driver_loop
    by_cases hmem : r.objectName ∈ done
    · rw [if_pos hmem]; exact (ih done).trans (List.sublist_cons_self r rs)
    · rw [if_neg hmem]; exact (ih _).cons₂ r

/-- C10: starting from an empty `done` list, the driver loop queries rows in
input order (a sublist of the input), covers exactly the object names that
occur in the input, and queries each distinct object name at most once — any
row whose name already occurred earlier is skipped. -/
theorem driver_dedups_by_object_name (rows : List Target) :
    ((driver_loop [] rows).map Target.objectName).Nodup ∧
    (∀ n : String, n ∈ (driver_loop [] rows).map Target.objectName ↔
      n ∈ rows.map Target.objectName) ∧
    (driver_loop [] rows).Sublist rows := by
  refine ⟨driver_loop_nodup rows [], fun n => ?_, driver_loop_sublist rows []⟩
  rw [driver_loop_names rows [] n]
  simp
